import Mathlib

/-!
Shallow embedding of the ThreatWatch recurring-scan pipeline
(src/backend: mongodb_models.py, monitor_engine.py, monitor_service.py,
alert_service.py, celery_tasks.py, cost_tracker.py).

Modelling conventions:
* timestamps are `Int` seconds (Python timezone-aware datetimes); durations in
  seconds (1h = 3600, 24h = 86400, 7d = 604800);
* Python floats that only ever hold exact decimal values (confidence scores,
  dollar costs) are `ℚ`;
* Python `AttributeError` on a missing method is modelled by an explicit
  lookup into the list of method names actually defined on the class. The
  scan pipeline dies this way at its search step: monitor_engine.py line
  104 calls `google_client.search_news`, a method `GoogleCustomSearchClient`
  (google_search_client.py) never defines, so every call to `scan_monitor`
  raises there — before any counter is set — and the outer handler (lines
  203-208) returns `(None, history)` with the error recorded. The engine
  code downstream of that call (search-result handling, filtering, severity
  parsing, the gate, alert construction, cost computation) is translated as
  the standalone source functions it consists of; `scan_monitor` itself
  follows the only path the program can take;
* MongoDB collections are Lean lists; documents are structures; the pydantic
  field validators (`ge`/`le` bounds) are explicit `valid` predicates applied
  at construction time, as pydantic does.
-/

namespace ThreatWatch

/-- Enum `MonitorFrequency` (mongodb_models.py): hourly / daily / weekly. -/
inductive MonitorFrequency where
  | hourly
  | daily
  | weekly
deriving DecidableEq, Repr

/-- Enum `SeverityLevel` (mongodb_models.py): low / medium / high / critical. -/
inductive SeverityLevel where
  | low
  | medium
  | high
  | critical
deriving DecidableEq, Repr

/-- Enum `AlertStatus` (mongodb_models.py). -/
inductive AlertStatus where
  | new
  | acknowledged
  | resolved
  | false_positive
deriving DecidableEq, Repr

/-- `AlertSource` (mongodb_models.py): one cited article on an alert.
`relevance_score` carries pydantic bounds ge=0, le=1. -/
structure AlertSource where
  title : String
  url : String
  domain : String
  published : Option Int := none
  snippet : Option String := none
  relevance_score : ℚ := 0
deriving DecidableEq, Repr

/-- `ThreatIndicators` (mongodb_models.py). -/
structure ThreatIndicators where
  attack_vectors : List String := []
  affected_sectors : List String := []
  geographical_scope : List String := []
  threat_actors : List String := []
deriving DecidableEq, Repr

/-- `AlertModel` (mongodb_models.py). `confidence_score` carries pydantic
bounds ge=0, le=1. The pipeline only ever constructs status `new`. -/
structure AlertModel where
  id : String := ""
  monitor_id : String
  user_id : String
  title : String
  summary : String
  severity : SeverityLevel
  confidence_score : ℚ := 0
  source_count : Nat := 0
  sources : List AlertSource := []
  threat_indicators : ThreatIndicators := {}
  created_at : Int
  status : AlertStatus := .new
  notification_sent : Bool := false
deriving DecidableEq, Repr

/-- Pydantic bound check on `AlertSource.relevance_score` (ge=0.0, le=1.0). -/
def AlertSource.valid (s : AlertSource) : Bool :=
  decide (0 ≤ s.relevance_score) && decide (s.relevance_score ≤ 1)

/-- Pydantic validation of `AlertModel`: `confidence_score` in [0,1] and every
nested `AlertSource` valid. -/
def AlertModel.valid (a : AlertModel) : Bool :=
  decide (0 ≤ a.confidence_score) && decide (a.confidence_score ≤ 1)
    && a.sources.all AlertSource.valid

/-- Constructing an `AlertModel` through pydantic: the value when validation
passes, `none` when a `ValidationError` is raised. -/
def AlertModel.validated (a : AlertModel) : Option AlertModel :=
  if a.valid then some a else none

/-- `APICosts` (mongodb_models.py): per-scan usage and cost record. -/
structure APICosts where
  google_search_queries : Nat := 0
  llm_tokens : Nat := 0
  llm_input_tokens : Nat := 0
  llm_output_tokens : Nat := 0
  total_cost : ℚ := 0
deriving DecidableEq, Repr

/-- `ScanMetadata` (mongodb_models.py). -/
structure ScanMetadata where
  query_variations : List String := []
deriving DecidableEq, Repr

/-- `AlertHistoryModel` (mongodb_models.py): the append-only ScanRecord, one
per scan attempt. Wall-clock `scan_duration` is real time and is not
modelled. `success` defaults to `True` as in the pydantic model. -/
structure AlertHistoryModel where
  id : String := ""
  monitor_id : String
  scan_timestamp : Int
  articles_processed : Nat := 0
  alerts_generated : Nat := 0
  api_costs : APICosts := {}
  scan_metadata : ScanMetadata := {}
  errors : List String := []
  success : Bool := true
deriving DecidableEq, Repr

/-- `MonitorModel` (mongodb_models.py). Notification preferences are not read
by any scan-pipeline code path modelled here and are omitted. -/
structure MonitorModel where
  id : String
  user_id : String
  term : String
  description : Option String := none
  keywords : List String := []
  exclude_keywords : List String := []
  frequency : MonitorFrequency := .daily
  severity_threshold : SeverityLevel := .medium
  active : Bool := true
  created_at : Int := 0
  updated_at : Int := 0
  last_scan : Option Int := none
  next_scan : Option Int := none
  scan_count : Nat := 0
  alert_count : Nat := 0
deriving DecidableEq, Repr

/-- Severity ranking used by `MonitorEngine._meets_threshold`
(monitor_engine.py lines 492-497): LOW=1, MEDIUM=2, HIGH=3, CRITICAL=4. -/
def severity_rank : SeverityLevel → Nat
  | .low => 1
  | .medium => 2
  | .high => 3
  | .critical => 4

/-- `MonitorEngine._meets_threshold` (monitor_engine.py): true iff the ranked
severity is ≥ the ranked threshold. The Python `.get(_, 0)` defaults are
unreachable because every enum value is a key of the rank dict. -/
def meets_threshold (severity threshold : SeverityLevel) : Bool :=
  severity_rank severity ≥ severity_rank threshold

/-- ASCII lowercasing, as Python `str.lower()` on the inputs involved
(character-by-character case mapping). -/
def str_lower (s : String) : String := ⟨s.data.map Char.toLower⟩

/-- `MonitorEngine._parse_severity` (monitor_engine.py): map the lowercased
string through the severity dict, defaulting to MEDIUM. -/
def parse_severity (severity_str : String) : SeverityLevel :=
  if str_lower severity_str = "low" then .low
  else if str_lower severity_str = "medium" then .medium
  else if str_lower severity_str = "high" then .high
  else if str_lower severity_str = "critical" then .critical
  else .medium

/-- `MonitorService._calculate_next_scan` (monitor_service.py lines 370-395).
The Python if/elif/else chain falls through to the daily delta for any value
that is not one of the three enum members; that fall-through case is the
`none` argument here (unknown/unset frequency). -/
def calculate_next_scan (frequency : Option MonitorFrequency) (now : Int) : Int :=
  if frequency = some .hourly then now + 3600
  else if frequency = some .daily then now + 86400
  else if frequency = some .weekly then now + 604800
  else now + 86400

/-- Case-insensitive substring test, as Python `kw.lower() in text.lower()`
(monitor_engine.py line 276). -/
def str_contains_ci (hay needle : String) : Bool :=
  let h := (str_lower hay).data
  let n := (str_lower needle).data
  (List.range (h.length + 1)).any (fun i => ((h.drop i).take n.length) == n)

/-- Article dict as produced by the search client and read by
`MonitorEngine` via `.get` with the defaults shown in the source; the
publication date string is modelled directly as an optional timestamp. -/
structure Article where
  title : String := "Untitled"
  url : String := ""
  domain : String := "Unknown"
  date : Option Int := none
  snippet : String := ""
deriving DecidableEq, Repr

/-- `MonitorEngine._build_search_query` (monitor_engine.py lines 210-235):
term, then up to 3 OR-joined keywords in parentheses, then up to 3
"-"-prefixed exclusions. -/
def build_search_query (monitor : MonitorModel) : String :=
  let query := monitor.term
  let query :=
    if monitor.keywords ≠ [] then
      query ++ " (" ++ String.intercalate " OR " (monitor.keywords.take 3) ++ ")"
    else query
  if monitor.exclude_keywords ≠ [] then
    query ++ " " ++
      String.intercalate " " ((monitor.exclude_keywords.take 3).map (fun keyword => "-" ++ keyword))
  else query

/-- Loop body of `MonitorEngine._filter_articles` (monitor_engine.py lines
257-284): drop already-seen URLs, snippets shorter than 50 characters, and
articles whose title or snippet contains an excluded keyword
case-insensitively; the URL of a kept article is added to the seen set. -/
def filter_articles_go (exclude_keywords : List String) :
    List Article → List String → List Article
  | [], _ => []
  | article :: rest, seen_urls =>
    if seen_urls.contains article.url then
      filter_articles_go exclude_keywords rest seen_urls
    else if article.snippet.length < 50 then
      filter_articles_go exclude_keywords rest seen_urls
    else if exclude_keywords.any (fun keyword =>
        str_contains_ci article.title keyword || str_contains_ci article.snippet keyword) then
      filter_articles_go exclude_keywords rest seen_urls
    else
      article :: filter_articles_go exclude_keywords rest (article.url :: seen_urls)

/-- `MonitorEngine._filter_articles` (monitor_engine.py). -/
def filter_articles (articles : List Article) (monitor : MonitorModel) : List Article :=
  filter_articles_go monitor.exclude_keywords articles []

/-- Structured assessment dict parsed by `MonitorEngine._analyze_with_llm`;
fields read through `.get` with defaults at the use sites. -/
structure Assessment where
  severity : Option String := none
  confidence : Option ℚ := none
  title : Option String := none
  summary : Option String := none
  key_threats : List String := []
  attack_vectors : List String := []
  affected_sectors : List String := []
  geographical_scope : List String := []
deriving DecidableEq, Repr

/-- Method names defined on class `GoogleCustomSearchClient`
(google_search_client.py): the class has `search_news_articles`,
`extract_article_data`, `_extract_source_name`, `_extract_publish_date`
and `health_check` — and no `search_news`. -/
def googleClient_method_names : List String :=
  ["__init__", "search_news_articles", "extract_article_data",
   "_extract_source_name", "_extract_publish_date", "health_check"]

/-- Python attribute lookup for `self.google_client.search_news`
(monitor_engine.py line 104): `AttributeError` unless the class defines a
method of that name; `GoogleCustomSearchClient` does not, so the lookup
raises on every call. -/
def googleClient_lookup_search_news : Except String Unit :=
  if "search_news" ∈ googleClient_method_names then .ok ()
  else .error "AttributeError: GoogleCustomSearchClient object has no attribute search_news"

/-- Method names defined on class `CostTracker` (cost_tracker.py lines
35-230). -/
def costTracker_method_names : List String :=
  ["__init__", "calculate_llm_cost", "calculate_google_api_cost",
   "format_cost_for_display", "get_cost_summary"]

/-- GPT-4o token pricing from `CostTracker.calculate_llm_cost`
(cost_tracker.py): input at $2.50 and output at $10.00 per 1M tokens, each
part quantized to 6 decimal places with ROUND_HALF_UP (amounts are
nonnegative, so half-up is floor of the shifted value plus one half). -/
def calculate_llm_cost_amount (input_tokens output_tokens : Nat) : ℚ :=
  let quantize6 : ℚ → ℚ := fun q => (⌊q * 1000000 + 1/2⌋ : ℚ) / 1000000
  let input_cost := quantize6 ((input_tokens : ℚ) / 1000000 * (5/2))
  let output_cost := quantize6 ((output_tokens : ℚ) / 1000000 * 10)
  input_cost + output_cost

/-- Python attribute lookup for `self.cost_tracker._calculate_cost`
(monitor_engine.py line 188): `AttributeError` unless the class defines a
method of that name; `CostTracker` does not, so the lookup raises. Were the
attribute present, the intended value is the LLM pricing function. -/
def costTracker_lookup_calculate_cost : Except String (Nat → Nat → ℚ) :=
  if "_calculate_cost" ∈ costTracker_method_names then
    .ok calculate_llm_cost_amount
  else
    .error "AttributeError: CostTracker object has no attribute _calculate_cost"

/-- `MonitorEngine._create_alert_from_analysis` (monitor_engine.py lines
397-454): build up to 10 `AlertSource`s with relevance 0.8, assemble threat
indicators and the `AlertModel` (status defaults to `new`), with pydantic
validation; any exception (in particular a `ValidationError` from a
confidence score outside [0,1]) is caught and `None` returned. -/
def create_alert_from_analysis (monitor : MonitorModel) (articles : List Article)
    (analysis : Assessment) (severity : SeverityLevel) (now : Int) :
    Option AlertModel :=
  let sources : List AlertSource := (articles.take 10).map (fun article =>
    { title := article.title
      url := article.url
      domain := article.domain
      published := article.date
      snippet := some article.snippet
      relevance_score := 4/5 })
  let threat_indicators : ThreatIndicators :=
    { attack_vectors := analysis.attack_vectors
      affected_sectors := analysis.affected_sectors
      geographical_scope := analysis.geographical_scope
      threat_actors := [] }
  AlertModel.validated
    { monitor_id := monitor.id
      user_id := monitor.user_id
      title := analysis.title.getD ("Threat detected: " ++ monitor.term)
      summary := analysis.summary.getD "New threat detected"
      severity := severity
      confidence_score := analysis.confidence.getD (1/2)
      source_count := sources.length
      sources := sources
      threat_indicators := threat_indicators
      created_at := now }

/-- `MonitorEngine.scan_monitor` (monitor_engine.py lines 62-208). The
`try` block builds the history record, sets its query metadata (lines
92-100), then at line 104 looks up `self.google_client.search_news` — an
attribute `GoogleCustomSearchClient` does not define — so every call
raises `AttributeError` there, before `articles_processed`,
`google_search_queries` or any token counter is touched. The outer handler
(lines 203-208) flips `success` to false, appends the message, and returns
`(None, history)`. The code of lines 110-202 (search-result handling,
filtering, analysis, the severity gate via `meets_threshold`, alert
construction via `create_alert_from_analysis`, cost computation via
`costTracker_lookup_calculate_cost`) sits beyond the raising call and
never executes; the `.ok` branch below is that unreachable continuation
and its value is never the value of any real call. -/
def scan_monitor (monitor : MonitorModel) (now : Int) :
    Option AlertModel × AlertHistoryModel :=
  let history0 : AlertHistoryModel :=
    { monitor_id := monitor.id
      scan_timestamp := now
      scan_metadata := { query_variations := [build_search_query monitor] } }
  match googleClient_lookup_search_news with
  | .ok _ => (none, history0)
  | .error attr_error =>
    (none, { history0 with
               success := false
               errors := history0.errors ++ [attr_error] })

/-- `AlertService._is_duplicate_alert` (alert_service.py lines 425-460):
does the alerts collection hold a document with the same user id, monitor
id and exact title whose `created_at` is at or after `now - hours`
(the Mongo query uses a single `$gte` bound)? -/
def is_duplicate_alert (alerts : List AlertModel)
    (user_id monitor_id title : String) (now : Int) (hours : Int := 24) : Bool :=
  let since := now - hours * 3600
  alerts.any (fun a =>
    a.user_id == user_id && a.monitor_id == monitor_id && a.title == title
      && decide (since ≤ a.created_at))

/-- `AlertService.create_alert` (alert_service.py lines 57-131): build the
`AlertModel` (pydantic validation; a `ValidationError` propagates to the
caller as the method re-raises), then suppress insertion when
`_is_duplicate_alert` over the trailing 24 hours finds a match (returning
`None`), otherwise insert. Result: the new alerts collection and the value
returned to the caller. -/
def create_alert (alerts : List AlertModel)
    (monitor_id user_id title summary : String) (severity : SeverityLevel)
    (sources : List AlertSource) (confidence_score : ℚ)
    (threat_indicators : ThreatIndicators) (now : Int) :
    Except String (List AlertModel × Option AlertModel) :=
  let candidate : AlertModel :=
    { monitor_id := monitor_id
      user_id := user_id
      title := title
      summary := summary
      severity := severity
      confidence_score := confidence_score
      source_count := sources.length
      sources := sources
      threat_indicators := threat_indicators
      created_at := now }
  match AlertModel.validated candidate with
  | none => .error "ValidationError"
  | some alert =>
    if is_duplicate_alert alerts user_id monitor_id title now 24 then
      .ok (alerts, none)
    else
      .ok (alerts ++ [alert], some alert)

/-- Count of alerts matching one (user id, monitor id, title) key. -/
def matching_alert_count (alerts : List AlertModel)
    (user_id monitor_id title : String) : Nat :=
  (alerts.filter (fun a =>
    a.user_id == user_id && a.monitor_id == monitor_id && a.title == title)).length

/-- `MonitorService.get_due_monitors` (monitor_service.py lines 265-298):
active monitors whose `next_scan` is at or before now; a missing
`next_scan` does not satisfy the `$lte` bound. -/
def get_due_monitors (monitors : List MonitorModel) (now : Int) :
    List MonitorModel :=
  monitors.filter (fun m =>
    m.active && match m.next_scan with
      | some t => decide (t ≤ now)
      | none => false)

/-- `MonitorService.update_scan_status` (monitor_service.py lines 300-349):
set `last_scan`, `next_scan` and `updated_at` on the monitor with the given
id, incrementing `scan_count` when requested and `alert_count` by the given
amount (the `$inc` is only issued for a positive count; adding zero is the
same). Monitor ids are unique in the collection. -/
def update_scan_status (monitors : List MonitorModel) (monitor_id : String)
    (scan_timestamp next_scan : Int) (increment_scan_count : Bool)
    (increment_alert_count : Nat) (now : Int) : List MonitorModel :=
  monitors.map (fun m =>
    if m.id == monitor_id then
      { m with
          last_scan := some scan_timestamp
          next_scan := some next_scan
          updated_at := now
          scan_count := m.scan_count + (if increment_scan_count then 1 else 0)
          alert_count := m.alert_count + increment_alert_count }
    else m)

/-- Persistent collections touched by the scan task (celery_tasks.py). -/
structure TaskDB where
  monitors : List MonitorModel
  alerts : List AlertModel
  alert_history : List AlertHistoryModel
deriving DecidableEq, Repr

/-- Alert-persistence step of `scan_monitor_task.perform_scan`
(celery_tasks.py lines 123-127): when the engine returned an alert it is
inserted into `db.alerts` directly — no duplicate query precedes the
insert on this path. -/
def save_alert_if_created (db : TaskDB) (alertOpt : Option AlertModel) : TaskDB :=
  match alertOpt with
  | some alert => { db with alerts := db.alerts ++ [alert] }
  | none => db

/-- Result dict of one `perform_scan` run (celery_tasks.py). -/
inductive TaskResult where
  | skipped (reason : String)
  | success (alert_created : Bool) (articles_processed : Nat) (cost : ℚ)
deriving DecidableEq, Repr

/-- `perform_scan` inside `scan_monitor_task` (celery_tasks.py lines
106-150): fetch the monitor (raising when absent — the only raise on this
path, since `scan_monitor` catches its own exceptions and the modelled
store writes succeed), skip when inactive, run the engine, persist the
alert (when any) and the scan record, then recompute `next_scan` from the
frequency and update the monitor unconditionally. -/
def perform_scan (db : TaskDB) (monitor_id : String)
    (now : Int) : Except String (TaskDB × TaskResult) :=
  match db.monitors.find? (fun m => m.id == monitor_id) with
  | none => .error ("Monitor " ++ monitor_id ++ " not found")
  | some monitor =>
    if !monitor.active then
      .ok (db, .skipped "inactive")
    else
      let (alertOpt, history) := scan_monitor monitor now
      let db1 := save_alert_if_created db alertOpt
      let db2 := { db1 with alert_history := db1.alert_history ++ [history] }
      let next_scan := calculate_next_scan (some monitor.frequency) now
      let db3 := { db2 with
        monitors := update_scan_status db2.monitors monitor.id
          history.scan_timestamp next_scan true
          (if alertOpt.isSome then 1 else 0) now }
      .ok (db3, .success alertOpt.isSome history.articles_processed
        history.api_costs.total_cost)

/-- Terminal outcome of `scan_monitor_task` after the Celery retry handling. -/
inductive TaskFinal where
  | done (db : TaskDB) (result : TaskResult)
  | failedStatus (error : String)
deriving DecidableEq, Repr

/-- `scan_monitor_task` (celery_tasks.py lines 71-170) together with its
Celery retry policy (`max_retries=3`, `default_retry_delay=300`): the body
runs `perform_scan`; an exception triggers `self.retry`, re-running the
body up to `max_retries` more times, after which `MaxRetriesExceededError`
yields a failed-status return. The modelled body is deterministic in
`(db, now)`, so a failing attempt fails on every retry; the first
component counts attempts executed. -/
def scan_monitor_task_runs (db : TaskDB) (monitor_id : String)
    (now : Int) (max_retries : Nat := 3) : Nat × TaskFinal :=
  match perform_scan db monitor_id now with
  | .ok (db1, result) => (1, .done db1 result)
  | .error e => (max_retries + 1, .failedStatus e)

/-- Dispatch loop of `scan_all_due_monitors_task` (celery_tasks.py lines
204-213): one `scan_monitor_task.delay(monitor.id)` per due monitor, in
order; nothing else is consulted before enqueueing. -/
def scan_all_due_monitors_trigger (due_monitors : List MonitorModel) :
    List String :=
  due_monitors.map (fun m => m.id)

/-- Specification dispatch (spec §4.1 Tick): dispatch is skipped — not
queued — for a monitor whose id is already in the in-flight set. Stated
from the spec for comparison with the dispatch loop of the source, which takes
no in-flight information at all. -/
def dispatch_with_in_flight_guard (due_monitors : List MonitorModel)
    (in_flight : List String) : List String :=
  (due_monitors.filter (fun m => !(in_flight.contains m.id))).map (fun m => m.id)

/-! Helper lemmas shared by the claim theorems below. -/

/-- Failure of the `google_client.search_news` attribute lookup: the name
is not in `googleClient_method_names`. -/
lemma googleClient_lookup_search_news_raises :
    googleClient_lookup_search_news =
      .error "AttributeError: GoogleCustomSearchClient object has no attribute search_news" := by
  rfl

/-- Value equation for `scan_monitor`: every call takes the exception path
opened by the missing `search_news` attribute, with no counter set. -/
lemma scan_monitor_eq (m : MonitorModel) (now : Int) :
    scan_monitor m now =
      (none,
       { monitor_id := m.id
         scan_timestamp := now
         scan_metadata := { query_variations := [build_search_query m] }
         success := false
         errors := ["AttributeError: GoogleCustomSearchClient object has no attribute search_news"] }) := by
  rfl

/-- C8: `_calculate_next_scan` maps hourly to now + 1 hour, daily to now +
24 hours, weekly to now + 7 days, and any unknown/unset frequency to the
daily default; the result is strictly in the future in every case. -/
theorem advance_schedule_arithmetic (f : Option MonitorFrequency) (now : Int) :
    calculate_next_scan (some .hourly) now = now + 3600
    ∧ calculate_next_scan (some .daily) now = now + 86400
    ∧ calculate_next_scan (some .weekly) now = now + 604800
    ∧ calculate_next_scan none now = now + 86400
    ∧ now < calculate_next_scan f now := by
  refine ⟨rfl, rfl, rfl, rfl, ?_⟩
  rcases f with _ | f
  · simp [calculate_next_scan]
  · cases f <;> simp [calculate_next_scan]

/-- C7: severities ranked by the total order low < medium < high <
critical. For an assessed severity `s` strictly below the monitor
threshold `t`, the severity gate returns false and the scan produces no
alert (zero alerts generated); for `s` equal to or above `t` the gate
passes. In the program as written the no-alert half holds a fortiori:
every scan fails at the missing `search_news` attribute before the gate,
so no scan produces an alert for any severity. -/
theorem severity_gate_total_order (s t : SeverityLevel) (m : MonitorModel)
    (now : Int) (ht : m.severity_threshold = t) :
    (severity_rank s < severity_rank t →
      meets_threshold s t = false
        ∧ (scan_monitor m now).fst = none
        ∧ (scan_monitor m now).snd.alerts_generated = 0)
    ∧ (severity_rank t ≤ severity_rank s → meets_threshold s t = true) := by
  constructor
  · intro hlt
    refine ⟨?_, rfl, rfl⟩
    simp only [meets_threshold, decide_eq_false_iff_not]
    omega
  · intro hle
    simp only [meets_threshold, decide_eq_true_eq]
    omega

/-- Triple-match predicate used by both the dedup query and the matching
count. -/
lemma not_duplicate_of_no_match (alerts : List AlertModel)
    (user_id monitor_id title : String) (now hours : Int)
    (h0 : matching_alert_count alerts user_id monitor_id title = 0) :
    is_duplicate_alert alerts user_id monitor_id title now hours = false := by
  unfold matching_alert_count at h0
  rw [List.length_eq_zero, List.filter_eq_nil_iff] at h0
  unfold is_duplicate_alert
  rw [List.any_eq_false]
  intro a ha
  have h := h0 a ha
  simp only [Bool.and_eq_true] at h ⊢
  tauto

/-- C5: two `create_alert` calls with the same (user id, monitor id, title),
the second within 24 hours of the creation of the first alert, starting from a
store with no matching alert: the first inserts, the second suppresses
insertion and returns the duplicate outcome (`None`), and exactly one
matching alert exists afterward. -/
theorem create_alert_dedup_idempotent (alerts0 : List AlertModel)
    (monitor_id user_id title summary1 summary2 : String)
    (sev1 sev2 : SeverityLevel) (sources1 sources2 : List AlertSource)
    (conf1 conf2 : ℚ) (ti1 ti2 : ThreatIndicators) (t1 t2 : Int)
    (h0 : matching_alert_count alerts0 user_id monitor_id title = 0)
    (hc1 : 0 ≤ conf1 ∧ conf1 ≤ 1) (hs1 : sources1.all AlertSource.valid = true)
    (hc2 : 0 ≤ conf2 ∧ conf2 ≤ 1) (hs2 : sources2.all AlertSource.valid = true)
    (hwin : t2 - t1 ≤ 86400) :
    ∃ alerts1 a1,
      create_alert alerts0 monitor_id user_id title summary1 sev1 sources1
          conf1 ti1 t1 = .ok (alerts1, some a1)
      ∧ create_alert alerts1 monitor_id user_id title summary2 sev2 sources2
          conf2 ti2 t2 = .ok (alerts1, none)
      ∧ matching_alert_count alerts1 user_id monitor_id title = 1 := by
  have hvalid1 :
      (AlertModel.valid
        { monitor_id := monitor_id, user_id := user_id, title := title
          summary := summary1, severity := sev1, confidence_score := conf1
          source_count := sources1.length, sources := sources1
          threat_indicators := ti1, created_at := t1 }) = true := by
    unfold AlertModel.valid
    simp [hc1.1, hc1.2, hs1]
  have hvalid2 :
      (AlertModel.valid
        { monitor_id := monitor_id, user_id := user_id, title := title
          summary := summary2, severity := sev2, confidence_score := conf2
          source_count := sources2.length, sources := sources2
          threat_indicators := ti2, created_at := t2 }) = true := by
    unfold AlertModel.valid
    simp [hc2.1, hc2.2, hs2]
  have hdup0 : is_duplicate_alert alerts0 user_id monitor_id title t1 24 = false :=
    not_duplicate_of_no_match alerts0 user_id monitor_id title t1 24 h0
  refine ⟨alerts0 ++
    [{ monitor_id := monitor_id, user_id := user_id, title := title
       summary := summary1, severity := sev1, confidence_score := conf1
       source_count := sources1.length, sources := sources1
       threat_indicators := ti1, created_at := t1 }],
    { monitor_id := monitor_id, user_id := user_id, title := title
      summary := summary1, severity := sev1, confidence_score := conf1
      source_count := sources1.length, sources := sources1
      threat_indicators := ti1, created_at := t1 }, ?_, ?_, ?_⟩
  · unfold create_alert AlertModel.validated
    simp [hvalid1, hdup0]
  · have hdup1 : is_duplicate_alert (alerts0 ++
        [{ monitor_id := monitor_id, user_id := user_id, title := title
           summary := summary1, severity := sev1, confidence_score := conf1
           source_count := sources1.length, sources := sources1
           threat_indicators := ti1, created_at := t1 }])
        user_id monitor_id title t2 24 = true := by
      unfold is_duplicate_alert
      simp only [List.any_append, Bool.or_eq_true]
      right
      simp only [List.any_cons, List.any_nil, Bool.or_false, Bool.and_eq_true,
        beq_self_eq_true, decide_eq_true_eq, true_and]
      omega
    unfold create_alert AlertModel.validated
    simp [hvalid2, hdup1]
  · unfold matching_alert_count
    rw [List.filter_append]
    unfold matching_alert_count at h0
    rw [List.length_append, h0]
    simp

/-- Pydantic rejects an `AlertModel` whose confidence score leaves [0,1]. -/
lemma validated_none_of_bad_confidence (a : AlertModel)
    (h : a.confidence_score < 0 ∨ 1 < a.confidence_score) :
    AlertModel.validated a = none := by
  have hfalse : AlertModel.valid a = false := by
    unfold AlertModel.valid
    rcases h with h | h
    · simp [not_le.mpr h]
    · simp [not_le.mpr h]
  unfold AlertModel.validated
  rw [hfalse]
  rfl

/-- C10: an analyzer assessment carrying a confidence outside [0,1] makes
`AlertModel` validation fail inside `_create_alert_from_analysis`, which
swallows the `ValidationError` and returns `None` — even when the assessed
severity passes the monitor threshold — and the scan returns no alert with
zero alerts generated (in the program as written every scan already
returns no alert, failing at the search step before alert construction);
nothing is clamped and no error reaches the caller. -/
theorem invalid_confidence_silently_dropped (m : MonitorModel)
    (articles : List Article) (assessment : Assessment) (sev : SeverityLevel)
    (now : Int) (c : ℚ)
    (hconf : assessment.confidence = some c)
    (hout : c < 0 ∨ 1 < c)
    (hgate : meets_threshold sev m.severity_threshold = true) :
    create_alert_from_analysis m articles assessment sev now = none
    ∧ (scan_monitor m now).fst = none
    ∧ (scan_monitor m now).snd.alerts_generated = 0 := by
  refine ⟨?_, rfl, rfl⟩
  unfold create_alert_from_analysis
  exact validated_none_of_bad_confidence _ (by simpa [hconf] using hout)

/-! Concrete fixtures used by the closed evaluations and witnesses. -/

/-- Monitor fixture for the Scenario-2 evaluation. -/
def c2_monitor : MonitorModel :=
  { id := "m2", user_id := "u2", term := "ransomware"
    severity_threshold := .high, frequency := .daily }

/-- C2: the Scenario-2 outcome (one alert with status=new and
source_count=3, ScanRecord success=true, alerts_generated=1) cannot occur:
the scan dies at the `search_news` attribute lookup before any external
interaction, returning no alert and a failed ScanRecord with
`articles_processed = 0` and `alerts_generated = 0`; and even if the
search step were repaired, the alert branch would raise again at the
`_calculate_cost` lookup on `CostTracker`. -/
theorem scenario2_attribute_error_eval :
    scan_monitor c2_monitor 1000 =
      (none,
       { monitor_id := "m2"
         scan_timestamp := 1000
         articles_processed := 0
         alerts_generated := 0
         scan_metadata := { query_variations := ["ransomware"] }
         errors := ["AttributeError: GoogleCustomSearchClient object has no attribute search_news"]
         success := false })
    ∧ googleClient_lookup_search_news
        = .error "AttributeError: GoogleCustomSearchClient object has no attribute search_news"
    ∧ costTracker_lookup_calculate_cost
        = .error "AttributeError: CostTracker object has no attribute _calculate_cost" := by
  exact ⟨rfl, rfl, rfl⟩

/-- First stored alert for the dedup-bypass evaluation. -/
def c1_alert_first : AlertModel :=
  { monitor_id := "m1", user_id := "u1", title := "Same ransomware headline"
    summary := "first occurrence", severity := .high
    confidence_score := 1, created_at := 3600 }

/-- Second alert with the identical (monitor id, title) one hour later. -/
def c1_alert_second : AlertModel :=
  { monitor_id := "m1", user_id := "u1", title := "Same ransomware headline"
    summary := "second occurrence", severity := .high
    confidence_score := 1, created_at := 7200 }

/-- Task database already holding the first alert. -/
def c1_db : TaskDB :=
  { monitors := [], alerts := [c1_alert_first], alert_history := [] }

/-- C1: the persistence step of the scan task inserts the second alert although
the dedup predicate (which `AlertService.create_alert` would have
consulted) flags it as a duplicate — afterwards two alerts with the same
(monitor id, title) exist one hour apart, inside one 24-hour window. -/
theorem scan_task_insert_bypasses_dedup :
    is_duplicate_alert c1_db.alerts "u1" "m1" "Same ransomware headline" 7200 24 = true
    ∧ save_alert_if_created c1_db (some c1_alert_second)
        = { monitors := [], alerts := [c1_alert_first, c1_alert_second], alert_history := [] }
    ∧ matching_alert_count (save_alert_if_created c1_db (some c1_alert_second)).alerts
        "u1" "m1" "Same ransomware headline" = 2
    ∧ c1_alert_second.created_at - c1_alert_first.created_at ≤ 86400 := by
  decide

/-- Monitor fixture for the retry analysis. -/
def c3_monitor : MonitorModel := { id := "m3", user_id := "u3", term := "phishing" }

/-- Task database holding only that monitor. -/
def c3_db : TaskDB := { monitors := [c3_monitor], alerts := [], alert_history := [] }

/-- Database state after the single failed scan attempt. -/
def c3_db_after : TaskDB :=
  { monitors := [{ id := "m3", user_id := "u3", term := "phishing"
                   last_scan := some 500, next_scan := some 86900
                   updated_at := 500, scan_count := 1 }]
    alerts := []
    alert_history := [{ monitor_id := "m3"
                        scan_timestamp := 500
                        scan_metadata := { query_variations := ["phishing"] }
                        success := false
                        errors := ["AttributeError: GoogleCustomSearchClient object has no attribute search_news"] }] }

/-- C3 counterexample: a failed scan completes the task in a single
attempt — the failure (here the `search_news` `AttributeError`, the only
failure the program can produce, since no external call is ever reached)
is absorbed by the handler of `scan_monitor`, so no exception escapes the
task body and Celery performs no retry — and the failed ScanRecord is
recorded immediately after that first attempt, not after an exhausted
retry cap. -/
theorem failed_scanrecord_after_first_attempt_counterexample :
    scan_monitor_task_runs c3_db "m3" 500 3
      = (1, .done c3_db_after (.success false 0 0))
    ∧ c3_db_after.alert_history.length = 1
    ∧ c3_db_after.alert_history.map (fun h => h.success) = [false] := by
  decide

/-- C3 amended: a failure inside the scan is never retried: `scan_monitor`
absorbs every exception of its try block into a ScanRecord with
`success = false` that `perform_scan` records immediately, so the task
completes in one attempt; the Celery retry policy (max_retries=3, 300 s
delay) engages only for exceptions escaping the task body, such as a
missing monitor document. Transient external failures cannot occur at all
in the program as written, because the scan raises at the missing
`search_news` attribute before any external call. -/
theorem scan_failure_recorded_after_first_attempt (db : TaskDB)
    (m : MonitorModel) (now : Int)
    (hfind : db.monitors.find? (fun x => x.id == m.id) = some m)
    (hactive : m.active = true) :
    ∃ dbOut,
      scan_monitor_task_runs db m.id now 3
        = (1, .done dbOut (.success false 0 0))
      ∧ (∃ hist, dbOut.alert_history = db.alert_history ++ [hist]
          ∧ hist.success = false ∧ hist.errors ≠ []) := by
  refine ⟨{ monitors := update_scan_status db.monitors m.id now
              (calculate_next_scan (some m.frequency) now) true 0 now
            alerts := db.alerts
            alert_history := db.alert_history ++
              [{ monitor_id := m.id
                 scan_timestamp := now
                 scan_metadata := { query_variations := [build_search_query m] }
                 success := false
                 errors := ["AttributeError: GoogleCustomSearchClient object has no attribute search_news"] }] }, ?_, ?_⟩
  · unfold scan_monitor_task_runs perform_scan
    rw [hfind]
    simp only [hactive, Bool.not_true, Bool.false_eq_true, if_false,
      scan_monitor_eq m now]
    rfl
  · exact ⟨_, rfl, rfl, by simp⟩

/-- Closed instance for the amended C3 statement. -/
theorem scan_failure_recorded_after_first_attempt_witness :
    ∃ dbOut,
      scan_monitor_task_runs c3_db "m3" 500 3
        = (1, .done dbOut (.success false 0 0))
      ∧ (∃ hist, dbOut.alert_history = c3_db.alert_history ++ [hist]
          ∧ hist.success = false ∧ hist.errors ≠ []) :=
  scan_failure_recorded_after_first_attempt c3_db c3_monitor 500 (by decide) rfl

/-- Monitor fixture for the cost analysis. -/
def c4_monitor : MonitorModel :=
  { id := "m4", user_id := "u4", term := "botnet", severity_threshold := .medium }

/-- C4 counterexample: the recorded ScanRecord of a scan carries no cost
at all — `google_search_queries = 0`, zero token counters and
`total_cost = 0` — although the claim requires one search-API query unit
(0.005 dollars, nonzero) plus any analyzer token cost; the scan raises at
the missing `search_news` attribute before any counter is set. -/
theorem scan_cost_not_attached_counterexample :
    (scan_monitor c4_monitor 2000).snd.api_costs.google_search_queries = 0
    ∧ (scan_monitor c4_monitor 2000).snd.api_costs.llm_input_tokens = 0
    ∧ (scan_monitor c4_monitor 2000).snd.api_costs.total_cost = 0
    ∧ (5 / 1000 : ℚ) ≠ 0 := by
  refine ⟨rfl, rfl, rfl, by norm_num⟩

/-- C4 amended: every recorded ScanRecord carries an all-zero cost record:
the scan raises at the missing `search_news` attribute before the search
query counter, the token counters or `total_cost` are ever set (and the
only `total_cost` assignment in the source, on the alert branch, would
itself raise at the missing `_calculate_cost` attribute). -/
theorem scan_record_costs_always_zero (m : MonitorModel) (now : Int) :
    (scan_monitor m now).snd.api_costs = ({} : APICosts) := by
  rfl

/-- Due, active monitor fixture for the dispatch analysis. -/
def c9_monitor : MonitorModel :=
  { id := "m9", user_id := "u9", term := "zero day", next_scan := some 0 }

/-- C9 counterexample: with monitor `m9` due and its id already in the
in-flight set, the dispatch loop of the source still triggers a scan for it,
while the guarded dispatch of the spec would have skipped it. -/
theorem tick_dispatch_ignores_in_flight_counterexample :
    get_due_monitors [c9_monitor] 100 = [c9_monitor]
    ∧ scan_all_due_monitors_trigger (get_due_monitors [c9_monitor] 100) = ["m9"]
    ∧ dispatch_with_in_flight_guard (get_due_monitors [c9_monitor] 100) ["m9"] = [] := by
  decide

/-- C9 amended: every due monitor is dispatched on every tick,
unconditionally — the dispatch loop consults nothing beyond the due list,
so no in-flight monitor is ever skipped. -/
theorem tick_dispatches_every_due_monitor (monitors : List MonitorModel)
    (now : Int) (m : MonitorModel)
    (hm : m ∈ get_due_monitors monitors now) :
    m.id ∈ scan_all_due_monitors_trigger (get_due_monitors monitors now) :=
  List.mem_map_of_mem _ hm

/-- Closed instance for the amended C9 statement. -/
theorem tick_dispatches_every_due_monitor_witness :
    "m9" ∈ scan_all_due_monitors_trigger (get_due_monitors [c9_monitor] 100) :=
  tick_dispatches_every_due_monitor [c9_monitor] 100 c9_monitor (by decide)

/-- Monitor fixture with a high threshold for the severity-gate witness. -/
def c7_monitor : MonitorModel :=
  { id := "m7", user_id := "u7", term := "apt activity", severity_threshold := .high }

/-- Closed instance of the severity-gate theorem at medium vs high. -/
theorem severity_gate_total_order_witness :
    (severity_rank .medium < severity_rank .high →
      meets_threshold .medium .high = false
        ∧ (scan_monitor c7_monitor 0).fst = none
        ∧ (scan_monitor c7_monitor 0).snd.alerts_generated = 0)
    ∧ (severity_rank .high ≤ severity_rank .medium →
        meets_threshold .medium .high = true) :=
  severity_gate_total_order .medium .high c7_monitor 0 rfl

/-- Closed instance of the C5 dedup theorem: empty store, identical
(owner, monitor, title) calls 100 s and 50 000 s into the epoch. -/
theorem create_alert_dedup_idempotent_witness :
    ∃ alerts1 a1,
      create_alert [] "m5" "u5" "Duplicate headline" "first summary" .high []
          (1/2) {} 100 = .ok (alerts1, some a1)
      ∧ create_alert alerts1 "m5" "u5" "Duplicate headline" "second summary" .high []
          (1/2) {} 50000 = .ok (alerts1, none)
      ∧ matching_alert_count alerts1 "u5" "m5" "Duplicate headline" = 1 :=
  create_alert_dedup_idempotent [] "m5" "u5" "Duplicate headline"
    "first summary" "second summary" .high .high [] [] (1/2) (1/2) {} {} 100 50000
    (by decide) ⟨by norm_num, by norm_num⟩ (by decide)
    ⟨by norm_num, by norm_num⟩ (by decide) (by decide)

/-- Monitor fixture for the invalid-confidence witness. -/
def c10_monitor : MonitorModel :=
  { id := "m10", user_id := "u10", term := "data breach", severity_threshold := .medium }

/-- Single article for the invalid-confidence witness. -/
def c10_article : Article :=
  { title := "Breach disclosed"
    url := "https://example.io/d1"
    domain := "example.io"
    snippet := "A company disclosed a data breach affecting several million customer records today." }

/-- Assessment passing the severity gate but carrying confidence 1.5. -/
def c10_assessment : Assessment :=
  { severity := some "high", confidence := some (3/2) }

/-- Closed instance of the C10 theorem at confidence 1.5 and severity high
against the medium threshold. -/
theorem invalid_confidence_silently_dropped_witness :
    create_alert_from_analysis c10_monitor [c10_article] c10_assessment .high 42 = none
    ∧ (scan_monitor c10_monitor 42).fst = none
    ∧ (scan_monitor c10_monitor 42).snd.alerts_generated = 0 :=
  invalid_confidence_silently_dropped c10_monitor [c10_article] c10_assessment .high 42
    (3/2) rfl (Or.inr (by norm_num)) (by decide)

/-- Monitor fixture for the Scenario-5 evaluation (daily frequency). -/
def c6_monitor : MonitorModel := { id := "m6", user_id := "u6", term := "cve exploit" }

/-- Task database holding only that monitor. -/
def c6_db : TaskDB := { monitors := [c6_monitor], alerts := [], alert_history := [] }

/-- Database state after one scan attempt of that monitor at t = 300. -/
def c6_db_after : TaskDB :=
  { monitors := [{ id := "m6", user_id := "u6", term := "cve exploit"
                   last_scan := some 300, next_scan := some 86700
                   updated_at := 300, scan_count := 1 }]
    alerts := []
    alert_history := [{ monitor_id := "m6"
                        scan_timestamp := 300
                        scan_metadata := { query_variations := ["cve exploit"] }
                        success := false
                        errors := ["AttributeError: GoogleCustomSearchClient object has no attribute search_news"] }] }

/-- C6: the Scenario-5 trigger (ThreatAnalyzer timing out) can never occur:
every scan raises at the missing `search_news` attribute before the
analysis step is reached. The recorded ScanRecord does have
`success = false` and a non-empty errors list, and `next_scan` is still
advanced per frequency (daily: 300 + 86400 = 86700) — but the recorded
error is the missing-method `AttributeError`, never an analyzer failure. -/
theorem scenario5_analysis_step_unreachable :
    perform_scan c6_db "m6" 300 = .ok (c6_db_after, .success false 0 0)
    ∧ c6_db_after.alert_history.map (fun h => h.success) = [false]
    ∧ c6_db_after.alert_history.map (fun h => h.errors)
        = [["AttributeError: GoogleCustomSearchClient object has no attribute search_news"]]
    ∧ c6_db_after.monitors.map (fun mm => mm.next_scan)
        = [some (calculate_next_scan (some c6_monitor.frequency) 300)] := by
  exact ⟨rfl, rfl, rfl, rfl⟩

end ThreatWatch
